import Mathlib

set_option linter.unusedVariables false

/- Verification of the hazard-aware route evaluator of src/client/src/App.js.
   The numeric operations of the turf geometry collaborator (buffer,
   booleanIntersects, distance, pointToLineDistance, nearestPointOnLine) are
   abstracted as parameters gathered in the TurfGeo structure, while the
   data-level constructors turf.lineString and turf.polygon, whose documented
   input validation decides control flow in the code, are modelled concretely.
   Coordinates are rational numbers; fallible turf calls and network fetches
   are values of Except String. -/

namespace MonsoonApp

/- A position in the geometry library order: (lng, lat). -/
abbrev Pos : Type := ℚ × ℚ

/- A display coordinate in leaflet order: (lat, lng). -/
abbrev LatLng : Type := ℚ × ℚ

/-- Conversion coord => [coord[1], coord[0]] from display order to geometry order. -/
def posOfLatLng (c : LatLng) : Pos := (c.2, c.1)

/-- Conversion coord => [coord[1], coord[0]] from geometry order to display order. -/
def latLngOfPos (p : Pos) : LatLng := (p.2, p.1)

/-- Result of geocodeAddress: an object with lat and lng fields. -/
structure Coord where
  lat : ℚ
  lng : ℚ
  deriving DecidableEq, Repr

/-- A flood report as created by window.reportSeverity: id, lat, lng, severity. -/
structure Report where
  id : ℤ
  lat : ℚ
  lng : ℚ
  severity : String
  deriving DecidableEq, Repr

/-- A drawn item as created by the pm:create handler: id, shape type, rings, color. -/
structure DrawnItem where
  id : ℤ
  type : String
  latlngs : List (List LatLng)
  color : String
  deriving DecidableEq, Repr

/-- The slice of an OSRM response the code reads: data.routes, each route reduced
to its geometry.coordinates, positions in (lng, lat) order; none models a missing
routes field. -/
structure OsrmData where
  routes : Option (List (List Pos))
  deriving DecidableEq, Repr

/-- The routing collaborator: a fetch of the OSRM driving route between two
positions, giving the parsed body or a thrown transport or parse error. -/
def Requester : Type := Pos → Pos → Except String OsrmData

/-- The closestFloodZone value: a turf point for a report, or the outer ring
coordinate array of a drawn polygon. -/
inductive FloodZone where
  | pt : Pos → FloodZone
  | ring : List Pos → FloodZone
  deriving DecidableEq, Repr

/-- The numeric geometry operations of the turf collaborator, abstracted: buffer
gives the rings of the circular polygon of the given radius in kilometers around
a point, booleanIntersects tests a line string against polygon rings, distance
and pointToLineDistance measure kilometers, nearestPointOnLine projects a target
onto a line string. -/
structure TurfGeo where
  buffer : Pos → ℚ → List (List Pos)
  booleanIntersects : List Pos → List (List Pos) → Bool
  distance : Pos → Pos → ℚ
  pointToLineDistance : Pos → List Pos → ℚ
  nearestPointOnLine : List Pos → FloodZone → Pos

/-- Validation of one linear ring, as documented for turf.polygon. -/
def checkRing (ring : List Pos) : Except String Unit :=
  if ring.length < 4 then
    Except.error "Each LinearRing of a Polygon must have 4 or more Positions."
  else if ring.head? ≠ ring.getLast? then
    Except.error "First and last Position are not equivalent."
  else Except.ok ()

/-- Validation of all rings; turf.polygon throws at the first invalid ring. -/
def checkRings : List (List Pos) → Except String Unit
  | [] => Except.ok ()
  | r :: rs =>
    match checkRing r with
    | Except.error e => Except.error e
    | Except.ok _ => checkRings rs

/-- Model of turf.polygon: validate the rings, then return the coordinates. -/
def turfPolygon (rings : List (List Pos)) : Except String (List (List Pos)) :=
  match checkRings rings with
  | Except.error e => Except.error e
  | Except.ok _ => Except.ok rings

/-- Model of turf.lineString: requires at least two positions. -/
def turfLineString (coords : List Pos) : Except String (List Pos) :=
  if coords.length < 2 then
    Except.error "coordinates must be an array of two or more positions"
  else Except.ok coords

/-- The route line construction routeCoords.map(coord => [coord[1], coord[0]]). -/
def toLine (routeCoords : List LatLng) : List Pos :=
  routeCoords.map posOfLatLng

/-- The turf point of a report, [report.lng, report.lat]. -/
def posOfReport (r : Report) : Pos := (r.lng, r.lat)

/-- The loop over reported markers in checkRouteForFloods: buffer each report
point by 0.1 kilometers and test intersection with the route line, returning at
the first hit. -/
def checkReports (g : TurfGeo) (routeLine : List Pos) : List Report → Bool
  | [] => false
  | r :: rs =>
    let bufferedPoint := g.buffer (posOfReport r) (1 / 10)
    if g.booleanIntersects routeLine bufferedPoint then true
    else checkReports g routeLine rs

/-- The type test item.type === 'rectangle' || item.type === 'polygon'. -/
def isAreaType (item : DrawnItem) : Bool :=
  item.type == "rectangle" || item.type == "polygon"

/-- The ring coordinates of a drawn item converted to geometry order, as in
item.latlngs.map(ring => ring.map(coord => [coord[1], coord[0]])). -/
def areaRings (item : DrawnItem) : List (List Pos) :=
  item.latlngs.map fun ring => ring.map posOfLatLng

/-- The loop over drawn polygons in checkRouteForFloods: items of type rectangle
or polygon are turned into a turf polygon, whose validation may throw, and are
tested against the route line; other items are skipped. -/
def checkDrawn (g : TurfGeo) (routeLine : List Pos) : List DrawnItem → Except String Bool
  | [] => Except.ok false
  | item :: rest =>
    if isAreaType item then
      match turfPolygon (areaRings item) with
      | Except.error e => Except.error e
      | Except.ok polygon =>
        if g.booleanIntersects routeLine polygon then Except.ok true
        else checkDrawn g routeLine rest
    else checkDrawn g routeLine rest

/-- checkRouteForFloods, App.js lines 86 to 109: build the route line, test the
buffered report points, then the drawn polygons; a turf validation error escapes
to the surrounding try of getRoute. -/
def checkRouteForFloods (g : TurfGeo) (routeCoords : List LatLng)
    (reports : List Report) (drawn : List DrawnItem) : Except String Bool :=
  match turfLineString (toLine routeCoords) with
  | Except.error e => Except.error e
  | Except.ok routeLine =>
    if checkReports g routeLine reports then Except.ok true
    else checkDrawn g routeLine drawn

/-- Comparison with the running minimum distance, none standing for Infinity. -/
def ltOpt (d : ℚ) : Option ℚ → Bool
  | none => true
  | some m => decide (d < m)

/-- The start point turf.point([startCoords.lng, startCoords.lat]). -/
def originPos (c : Coord) : Pos := (c.lng, c.lat)

/-- The loop over floodReports in getRoute lines 155 to 162: keep the closest
report point, a strictly smaller distance winning. -/
def foldReports (g : TurfGeo) (startPt : Pos) :
    Option FloodZone × Option ℚ → List Report → Option FloodZone × Option ℚ
  | acc, [] => acc
  | acc, r :: rs =>
    let point := posOfReport r
    let d := g.distance startPt point
    let acc' := if ltOpt d acc.2 then (some (FloodZone.pt point), some d) else acc
    foldReports g startPt acc' rs

/-- The outer ring of a drawn item, polygon.geometry.coordinates[0]. -/
def outerRing (item : DrawnItem) : List Pos :=
  (areaRings item).headD []

/-- The loop over drawnItems in getRoute lines 164 to 173: for rectangle and
polygon items, rebuild the turf polygon (validation may throw), measure the
distance from the start point to the outer ring taken as a line, and keep the
closest zone. -/
def foldDrawn (g : TurfGeo) (startPt : Pos) :
    Option FloodZone × Option ℚ → List DrawnItem → Except String (Option FloodZone × Option ℚ)
  | acc, [] => Except.ok acc
  | acc, item :: rest =>
    if isAreaType item then
      match turfPolygon (areaRings item) with
      | Except.error e => Except.error e
      | Except.ok rings =>
        match turfLineString (rings.headD []) with
        | Except.error e => Except.error e
        | Except.ok ringLine =>
          let d := g.pointToLineDistance startPt ringLine
          let acc' := if ltOpt d acc.2 then (some (FloodZone.ring (rings.headD [])), some d) else acc
          foldDrawn g startPt acc' rest
    else foldDrawn g startPt acc rest

/-- Nearest flood zone selection, getRoute lines 151 to 173: reports first, then
drawn items, starting from null and Infinity. -/
def selectedZone (g : TurfGeo) (startCoords : Coord) (reports : List Report)
    (drawn : List DrawnItem) : Except String (Option FloodZone) :=
  match foldDrawn g (originPos startCoords)
      (foldReports g (originPos startCoords) (none, none) reports) drawn with
  | Except.error e => Except.error e
  | Except.ok acc => Except.ok acc.1

/-- The fixed 0.01 degree offset applied to both axes of the detour point. -/
def offsetPoint (p : Pos) : Pos := (p.1 + 1 / 100, p.2 + 1 / 100)

/-- Detour anchor and bypass waypoint, getRoute lines 177 to 183: project the
main route line onto the selected zone with nearestPointOnLine and offset the
resulting coordinates by 0.01 on both axes. -/
def bypassWaypoint (g : TurfGeo) (routeCoordinates : List LatLng) (zone : FloodZone) :
    Except String Pos :=
  match turfLineString (toLine routeCoordinates) with
  | Except.error e => Except.error e
  | Except.ok mainRouteLine =>
    Except.ok (offsetPoint (g.nearestPointOnLine mainRouteLine zone))

/-- Truth of the test data.routes && data.routes.length > 0 on a leg response. -/
def legHasRoute (res : Except String OsrmData) : Bool :=
  match res with
  | Except.ok d =>
    match d.routes with
    | some (_ :: _) => true
    | _ => false
  | Except.error _ => false

/-- The merge of getRoute lines 195 to 199: when both leg responses carry at
least one route, concatenate leg A before leg B and convert each position to
display order; otherwise no alternate route is produced. -/
def mergeLegs (d1 d2 : OsrmData) : Option (List LatLng) :=
  match d1.routes, d2.routes with
  | some (a0 :: _), some (b0 :: _) => some ((a0 ++ b0).map latLngOfPos)
  | _, _ => none

/-- The alternative route calculation, getRoute lines 149 to 200: select the
nearest flood zone, compute the bypass waypoint, fetch the two detour legs
through the routing collaborator, and when both carry at least one route, merge
leg A before leg B into display coordinates; thrown errors propagate. -/
def planDetour (g : TurfGeo) (req : Requester) (startCoords endCoords : Coord)
    (routeCoordinates : List LatLng) (reports : List Report) (drawn : List DrawnItem) :
    Except String (Option (List LatLng)) :=
  match selectedZone g startCoords reports drawn with
  | Except.error e => Except.error e
  | Except.ok none => Except.ok none
  | Except.ok (some zone) =>
    match bypassWaypoint g routeCoordinates zone with
    | Except.error e => Except.error e
    | Except.ok w =>
      match req (originPos startCoords) w, req w (originPos endCoords) with
      | Except.error e, _ => Except.error e
      | Except.ok _, Except.error e => Except.error e
      | Except.ok d1, Except.ok d2 => Except.ok (mergeLegs d1 d2)

/-- The state slice of App touched by route evaluation. -/
structure AppState where
  route : Option (List LatLng)
  altRoute : Option (List LatLng)
  showWarning : Bool
  deriving DecidableEq, Repr

/-- State after the resets at the top of getRoute. -/
def initState : AppState := { route := none, altRoute := none, showWarning := false }

/-- getRoute from the primary OSRM response onward, lines 136 to 212: on a
response with at least one route, store the display coordinates, run the flood
check, and when it reports a hazard set the warning and attempt the detour; a
thrown error is caught by the enclosing catch, which only alerts, so the state
reached so far is kept. -/
def evaluateRoute (g : TurfGeo) (req : Requester) (startCoords endCoords : Coord)
    (reports : List Report) (drawn : List DrawnItem) (primary : Except String OsrmData) :
    AppState :=
  match primary with
  | Except.error _ => initState
  | Except.ok data =>
    match data.routes with
    | some (r0 :: _) =>
      let routeCoordinates := r0.map latLngOfPos
      let s1 : AppState := { initState with route := some routeCoordinates }
      match checkRouteForFloods g routeCoordinates reports drawn with
      | Except.error _ => s1
      | Except.ok false => s1
      | Except.ok true =>
        let s2 : AppState := { s1 with showWarning := true }
        match planDetour g req startCoords endCoords routeCoordinates reports drawn with
        | Except.error _ => s2
        | Except.ok none => s2
        | Except.ok (some alt) => { s2 with altRoute := some alt }
    | _ => initState

/-- Effective hit test of one report: the route line meets the 100 meter buffer. -/
def reportHits (g : TurfGeo) (routeLine : List Pos) (r : Report) : Bool :=
  g.booleanIntersects routeLine (g.buffer (posOfReport r) (1 / 10))

/-- Effective hit test of one drawn item: an area item whose polygon meets the line. -/
def areaHits (g : TurfGeo) (routeLine : List Pos) (item : DrawnItem) : Bool :=
  isAreaType item && g.booleanIntersects routeLine (areaRings item)

/-- Well-formedness of polygon rings per the data model: closed rings of at
least four positions, exactly the condition under which turf.polygon accepts. -/
def ringsValid (rings : List (List Pos)) : Prop :=
  ∀ ring ∈ rings, 4 ≤ ring.length ∧ ring.head? = ring.getLast?

/-- A drawn area usable by the nearest-zone selection: valid rings, one at least. -/
def areaUsable (item : DrawnItem) : Prop :=
  ringsValid (areaRings item) ∧ areaRings item ≠ []

/-- One selection step as the spec words it: a candidate at a strictly smaller
distance replaces the current best. -/
def minStep (o : Option (FloodZone × ℚ)) (c : FloodZone × ℚ) : Option (FloodZone × ℚ) :=
  match o with
  | none => some c
  | some a => if c.2 < a.2 then some c else some a

/-- Nearest-hazard selection rule as the spec words it: fold the candidates in
encounter order, the first hazard at the strictly smallest distance winning. -/
def firstMin (cands : List (FloodZone × ℚ)) : Option (FloodZone × ℚ) :=
  cands.foldl minStep none

/-- The candidate zone and distance contributed by a report. -/
def candOfReport (g : TurfGeo) (startPt : Pos) (r : Report) : FloodZone × ℚ :=
  (FloodZone.pt (posOfReport r), g.distance startPt (posOfReport r))

/-- The candidate zone and distance contributed by a drawn area. -/
def candOfArea (g : TurfGeo) (startPt : Pos) (item : DrawnItem) : FloodZone × ℚ :=
  (FloodZone.ring (outerRing item), g.pointToLineDistance startPt (outerRing item))

/-- All candidates in encounter order: reports first, then the drawn areas. -/
def candidateList (g : TurfGeo) (startPt : Pos) (reports : List Report)
    (drawn : List DrawnItem) : List (FloodZone × ℚ) :=
  reports.map (candOfReport g startPt) ++ (drawn.filter isAreaType).map (candOfArea g startPt)

/-- The fold state corresponding to an optional current best candidate. -/
def toPair (o : Option (FloodZone × ℚ)) : Option FloodZone × Option ℚ :=
  match o with
  | none => (none, none)
  | some c => (some c.1, some c.2)

/-- One fold step of the selection loops as the code runs them. -/
def accStep (acc : Option FloodZone × Option ℚ) (c : FloodZone × ℚ) :
    Option FloodZone × Option ℚ :=
  if ltOpt c.2 acc.2 then (some c.1, some c.2) else acc

/-- A report with the severity field cleared, for severity noninterference. -/
def sevStripped (r : Report) : Report := { r with severity := "" }

/-- A geometry instance whose intersection test always succeeds, for concrete runs. -/
def gAll : TurfGeo where
  buffer := fun p _ => [[p]]
  booleanIntersects := fun _ _ => true
  distance := fun _ _ => 0
  pointToLineDistance := fun _ _ => 1
  nearestPointOnLine := fun _ _ => (0, 0)

/-- A geometry instance whose intersection test always fails, for concrete runs. -/
def gNone : TurfGeo where
  buffer := fun p _ => [[p]]
  booleanIntersects := fun _ _ => false
  distance := fun _ _ => 0
  pointToLineDistance := fun _ _ => 1
  nearestPointOnLine := fun _ _ => (0, 0)

/-- Sample display route with two points. -/
def sampleRoute : List LatLng := [(173 / 10, 784 / 10), (174 / 10, 785 / 10)]

/-- Sample flood report. -/
def sampleReport : Report :=
  { id := 1, lat := 1735 / 100, lng := 7845 / 100, severity := "High" }

/-- The sample flood report with another severity. -/
def sampleReportLow : Report :=
  { id := 1, lat := 1735 / 100, lng := 7845 / 100, severity := "Low" }

/-- A degenerate drawn polygon whose single ring has two points. -/
def badItem : DrawnItem :=
  { id := 2, type := "polygon", latlngs := [[(17, 78), (18, 79)]], color := "red" }

/-- A well-formed drawn rectangle with a closed four position ring. -/
def goodItem : DrawnItem :=
  { id := 3, type := "rectangle",
    latlngs := [[(17, 78), (17, 79), (18, 79), (17, 78)]], color := "red" }

/-- A drawn item of a type that is neither rectangle nor polygon. -/
def strayItem : DrawnItem :=
  { id := 4, type := "circlemarker", latlngs := [[(1, 1)]], color := "red" }

/-- A leg response body carrying one candidate route of two positions. -/
def legData : OsrmData := { routes := some [[(0, 0), (1, 1)]] }

/-- A requester returning one candidate route for every query. -/
def reqOk : Requester := fun _ _ => Except.ok legData

/-- A requester modelling a failed fetch. -/
def reqFail : Requester := fun _ _ => Except.error "network error"

/-- Sample geocoded start coordinates. -/
def startC : Coord := { lat := 173 / 10, lng := 784 / 10 }

/-- Sample geocoded end coordinates. -/
def endC : Coord := { lat := 174 / 10, lng := 785 / 10 }

/-- Geometry coordinates of the primary OSRM route of the concrete runs. -/
def primaryCoords : List Pos := [(784 / 10, 173 / 10), (785 / 10, 174 / 10)]

/-- Primary OSRM body carrying one route of two positions. -/
def primaryData : OsrmData := { routes := some [primaryCoords] }

/-- Primary OSRM response carrying one route of two positions. -/
def primaryOk : Except String OsrmData := Except.ok primaryData

/-- The flood zone selected in the concrete runs. -/
def sampleZone : FloodZone := FloodZone.pt (posOfReport sampleReport)

/-- The bypass waypoint of the concrete runs over sampleRoute. -/
def sampleW : Pos := offsetPoint (gAll.nearestPointOnLine (toLine sampleRoute) sampleZone)

/-- The bypass waypoint of the concrete runs over the primary route. -/
def primaryW : Pos :=
  offsetPoint (gAll.nearestPointOnLine (toLine (primaryCoords.map latLngOfPos)) sampleZone)

theorem checkReports_eq_any (g : TurfGeo) (line : List Pos) (rs : List Report) :
    checkReports g line rs = rs.any (reportHits g line) := by
  induction rs with
  | nil => rfl
  | cons r rest ih =>
    cases h : g.booleanIntersects line (g.buffer (posOfReport r) (1 / 10)) <;>
      simp [checkReports, reportHits, h, ih, List.any_cons]

theorem checkRing_ok (ring : List Pos)
    (h : 4 ≤ ring.length ∧ ring.head? = ring.getLast?) :
    checkRing ring = Except.ok () := by
  unfold checkRing
  rw [if_neg (by omega), if_neg (not_not_intro h.2)]

theorem checkRings_ok (rings : List (List Pos)) (h : ringsValid rings) :
    checkRings rings = Except.ok () := by
  induction rings with
  | nil => rfl
  | cons r rest ih =>
    have h1 : checkRing r = Except.ok () := checkRing_ok r (h r (List.mem_cons_self r rest))
    have h2 := ih (fun ring hm => h ring (List.mem_cons_of_mem r hm))
    simp [checkRings, h1, h2]

theorem turfPolygon_ok (rings : List (List Pos)) (h : ringsValid rings) :
    turfPolygon rings = Except.ok rings := by
  simp [turfPolygon, checkRings_ok rings h]

theorem turfLineString_ok (coords : List Pos) (h : 2 ≤ coords.length) :
    turfLineString coords = Except.ok coords := by
  unfold turfLineString
  rw [if_neg (by omega)]

theorem checkDrawn_eq_any (g : TurfGeo) (line : List Pos) (ds : List DrawnItem)
    (h : ∀ item ∈ ds, isAreaType item = true → ringsValid (areaRings item)) :
    checkDrawn g line ds = Except.ok (ds.any (areaHits g line)) := by
  induction ds with
  | nil => rfl
  | cons item rest ih =>
    have hrest := ih (fun i hm => h i (List.mem_cons_of_mem item hm))
    by_cases ha : isAreaType item = true
    · have hp := turfPolygon_ok (areaRings item) (h item (List.mem_cons_self item rest) ha)
      cases hb : g.booleanIntersects line (areaRings item) <;>
        simp [checkDrawn, ha, hp, hb, areaHits, List.any_cons, hrest]
    · have ha' : isAreaType item = false := by
        revert ha; cases isAreaType item <;> simp
      simp [checkDrawn, ha', areaHits, List.any_cons, hrest]

theorem checkRouteForFloods_eq (g : TurfGeo) (routeCoords : List LatLng)
    (reports : List Report) (drawn : List DrawnItem)
    (hlen : 2 ≤ routeCoords.length)
    (hvalid : ∀ item ∈ drawn, isAreaType item = true → ringsValid (areaRings item)) :
    checkRouteForFloods g routeCoords reports drawn =
      Except.ok (reports.any (reportHits g (toLine routeCoords)) ||
        drawn.any (areaHits g (toLine routeCoords))) := by
  have hline : turfLineString (toLine routeCoords) = Except.ok (toLine routeCoords) :=
    turfLineString_ok _ (by simpa [toLine] using hlen)
  cases hr : reports.any (reportHits g (toLine routeCoords)) <;>
    simp [checkRouteForFloods, hline, checkReports_eq_any, hr,
      checkDrawn_eq_any g (toLine routeCoords) drawn hvalid]

theorem any_perm {α : Type} (f : α → Bool) {l₁ l₂ : List α} (h : l₁.Perm l₂) :
    l₁.any f = l₂.any f := by
  induction h with
  | nil => rfl
  | cons x h ih => simp [List.any_cons, ih]
  | swap x y l => cases hx : f x <;> cases hy : f y <;> simp [List.any_cons, hx, hy]
  | trans h₁ h₂ ih₁ ih₂ => rw [ih₁, ih₂]

/-- C1: for every route with at least two points and every hazard set whose drawn
areas are well formed (closed rings, as the data model defines a HazardArea),
checkRouteForFloods succeeds and returns true exactly when the 100 meter buffer of
some report or the polygon of some drawn area intersects the route line; an empty
hazard set gives false, and permuting the reports or the drawn items does not
change the boolean. -/
theorem checkRouteForFloods_correct (g : TurfGeo) (routeCoords : List LatLng)
    (reports : List Report) (drawn : List DrawnItem)
    (hlen : 2 ≤ routeCoords.length)
    (hvalid : ∀ item ∈ drawn, isAreaType item = true → ringsValid (areaRings item)) :
    ∃ b : Bool,
      checkRouteForFloods g routeCoords reports drawn = Except.ok b ∧
      (b = true ↔ (∃ r ∈ reports, reportHits g (toLine routeCoords) r = true) ∨
        (∃ item ∈ drawn, areaHits g (toLine routeCoords) item = true)) ∧
      (reports = [] → drawn = [] → b = false) ∧
      (∀ reports' drawn', reports.Perm reports' → drawn.Perm drawn' →
        checkRouteForFloods g routeCoords reports' drawn' = Except.ok b) := by
  refine ⟨reports.any (reportHits g (toLine routeCoords)) ||
      drawn.any (areaHits g (toLine routeCoords)),
    checkRouteForFloods_eq g routeCoords reports drawn hlen hvalid, ?_, ?_, ?_⟩
  · simp [List.any_eq_true]
  · rintro rfl rfl; rfl
  · intro reports' drawn' hp hd
    have hv' : ∀ item ∈ drawn', isAreaType item = true → ringsValid (areaRings item) :=
      fun i hm => hvalid i (hd.mem_iff.mpr hm)
    rw [checkRouteForFloods_eq g routeCoords reports' drawn' hlen hv',
      ← any_perm (reportHits g (toLine routeCoords)) hp,
      ← any_perm (areaHits g (toLine routeCoords)) hd]

/-- Witness for C1 at a concrete route, one report and one drawn rectangle. -/
theorem checkRouteForFloods_correct_witness :
    ∃ b : Bool,
      checkRouteForFloods gAll sampleRoute [sampleReport] [goodItem] = Except.ok b ∧
      (b = true ↔ (∃ r ∈ [sampleReport], reportHits gAll (toLine sampleRoute) r = true) ∨
        (∃ item ∈ [goodItem], areaHits gAll (toLine sampleRoute) item = true)) ∧
      ([sampleReport] = ([] : List Report) → [goodItem] = ([] : List DrawnItem) →
        b = false) ∧
      (∀ reports' drawn', List.Perm [sampleReport] reports' → List.Perm [goodItem] drawn' →
        checkRouteForFloods gAll sampleRoute reports' drawn' = Except.ok b) :=
  checkRouteForFloods_correct gAll sampleRoute [sampleReport] [goodItem]
    (by decide)
    (by intro item hm hty; simp only [List.mem_singleton] at hm; subst hm
        unfold ringsValid; decide)

/-- C2 at its failing input: a degenerate two point drawn polygon makes the
modelled turf.polygon validation throw inside checkRouteForFloods, so the whole
check aborts with an error instead of skipping the malformed area, although the
well formed rectangle listed after it would on its own have produced a result. -/
theorem degenerate_area_aborts_check :
    checkRouteForFloods gAll sampleRoute [] [badItem, goodItem] =
      Except.error "Each LinearRing of a Polygon must have 4 or more Positions." ∧
    checkRouteForFloods gAll sampleRoute [] [goodItem] = Except.ok true := by
  constructor <;> rfl

/-- C7: checkRouteForFloods is a pure, deterministic function: the source never
writes to its arguments or any outer state, so it embeds as a pure function, and
two invocations on equal route coordinates, reports and drawn items return equal
results. -/
theorem checkRouteForFloods_deterministic (g : TurfGeo) (rc₁ rc₂ : List LatLng)
    (rs₁ rs₂ : List Report) (ds₁ ds₂ : List DrawnItem)
    (hrc : rc₁ = rc₂) (hrs : rs₁ = rs₂) (hds : ds₁ = ds₂) :
    checkRouteForFloods g rc₁ rs₁ ds₁ = checkRouteForFloods g rc₂ rs₂ ds₂ := by
  rw [hrc, hrs, hds]

/-- Witness for C7 at concrete inputs. -/
theorem checkRouteForFloods_deterministic_witness :
    checkRouteForFloods gAll sampleRoute [sampleReport] [goodItem] =
      checkRouteForFloods gAll sampleRoute [sampleReport] [goodItem] :=
  checkRouteForFloods_deterministic gAll sampleRoute sampleRoute [sampleReport]
    [sampleReport] [goodItem] [goodItem] rfl rfl rfl

theorem accStep_toPair (o : Option (FloodZone × ℚ)) (c : FloodZone × ℚ) :
    accStep (toPair o) c = toPair (minStep o c) := by
  cases o with
  | none => rfl
  | some a =>
    simp only [toPair, accStep, minStep, ltOpt]
    by_cases h : c.2 < a.2 <;> simp [h]

theorem foldl_accStep_toPair (cs : List (FloodZone × ℚ)) :
    ∀ o : Option (FloodZone × ℚ),
      cs.foldl accStep (toPair o) = toPair (cs.foldl minStep o) := by
  induction cs with
  | nil => intro o; rfl
  | cons c rest ih =>
    intro o
    rw [List.foldl_cons, List.foldl_cons, accStep_toPair, ih]

theorem toPair_fst (o : Option (FloodZone × ℚ)) : (toPair o).1 = o.map Prod.fst := by
  cases o <;> rfl

theorem foldReports_eq_foldl (g : TurfGeo) (p : Pos) (rs : List Report) :
    ∀ acc, foldReports g p acc rs = (rs.map (candOfReport g p)).foldl accStep acc := by
  induction rs with
  | nil => intro acc; rfl
  | cons r rest ih =>
    intro acc
    rw [List.map_cons, List.foldl_cons]
    show foldReports g p (accStep acc (candOfReport g p r)) rest = _
    exact ih _

theorem outerRing_len (item : DrawnItem) (h : areaUsable item) :
    2 ≤ (outerRing item).length := by
  obtain ⟨hv, hne⟩ := h
  unfold outerRing
  cases hrs : areaRings item with
  | nil => exact absurd hrs hne
  | cons r rs =>
    have hr := hv r (hrs ▸ List.mem_cons_self r rs)
    simpa using le_trans (by norm_num) hr.1

theorem foldDrawn_eq_foldl (g : TurfGeo) (p : Pos) (ds : List DrawnItem)
    (h : ∀ item ∈ ds, isAreaType item = true → areaUsable item) :
    ∀ acc, foldDrawn g p acc ds =
      Except.ok (((ds.filter isAreaType).map (candOfArea g p)).foldl accStep acc) := by
  induction ds with
  | nil => intro acc; rfl
  | cons item rest ih =>
    have hrest := ih (fun i hm => h i (List.mem_cons_of_mem item hm))
    intro acc
    by_cases ha : isAreaType item = true
    · have hu := h item (List.mem_cons_self item rest) ha
      have hp := turfPolygon_ok (areaRings item) hu.1
      have hring : turfLineString ((areaRings item).headD []) =
          Except.ok ((areaRings item).headD []) :=
        turfLineString_ok _ (outerRing_len item hu)
      simp only [foldDrawn, ha, if_true, hp, hring, List.filter_cons_of_pos,
        List.map_cons, List.foldl_cons]
      exact hrest _
    · have ha' : isAreaType item = false := by
        revert ha; cases isAreaType item <;> simp
      simp only [foldDrawn, ha', Bool.false_eq_true, if_false, List.filter_cons]
      exact hrest acc

theorem selectedZone_eq (g : TurfGeo) (startCoords : Coord) (reports : List Report)
    (drawn : List DrawnItem)
    (h : ∀ item ∈ drawn, isAreaType item = true → areaUsable item) :
    selectedZone g startCoords reports drawn =
      Except.ok ((firstMin (candidateList g (originPos startCoords) reports drawn)).map
        Prod.fst) := by
  unfold selectedZone
  rw [foldReports_eq_foldl, foldDrawn_eq_foldl g (originPos startCoords) drawn h]
  have h1 : (reports.map (candOfReport g (originPos startCoords))).foldl accStep (none, none)
      = toPair ((reports.map (candOfReport g (originPos startCoords))).foldl minStep none) :=
    foldl_accStep_toPair _ none
  rw [h1, foldl_accStep_toPair]
  simp only [toPair_fst, candidateList, firstMin, List.foldl_append]

theorem foldl_minStep_le (cs : List (FloodZone × ℚ)) :
    ∀ a sel, cs.foldl minStep (some a) = some sel →
      sel.2 ≤ a.2 ∧ ∀ c ∈ cs, sel.2 ≤ c.2 := by
  induction cs with
  | nil =>
    intro a sel h
    obtain rfl : a = sel := by simpa using h
    exact ⟨le_refl _, by simp⟩
  | cons c rest ih =>
    intro a sel h
    rw [List.foldl_cons] at h
    by_cases hlt : c.2 < a.2
    · have hres := ih c sel (by simpa [minStep, hlt] using h)
      refine ⟨le_trans hres.1 (le_of_lt hlt), ?_⟩
      intro x hx
      cases hx with
      | head => exact hres.1
      | tail _ hx => exact hres.2 x hx
    · have hres := ih a sel (by simpa [minStep, hlt] using h)
      refine ⟨hres.1, ?_⟩
      intro x hx
      cases hx with
      | head => exact le_trans hres.1 (not_lt.mp hlt)
      | tail _ hx => exact hres.2 x hx

theorem firstMin_min (cs : List (FloodZone × ℚ)) (sel : FloodZone × ℚ)
    (h : firstMin cs = some sel) : ∀ c ∈ cs, sel.2 ≤ c.2 := by
  cases cs with
  | nil => cases h
  | cons c rest =>
    unfold firstMin at h
    rw [List.foldl_cons] at h
    have h' : rest.foldl minStep (some c) = some sel := by simpa [minStep] using h
    have hres := foldl_minStep_le rest c sel h'
    intro x hx
    cases hx with
    | head => exact hres.1
    | tail _ hx => exact hres.2 x hx

theorem foldl_minStep_stable (cs : List (FloodZone × ℚ)) :
    ∀ a, (∀ c ∈ cs, ¬ c.2 < a.2) → cs.foldl minStep (some a) = some a := by
  induction cs with
  | nil => intro a _; rfl
  | cons c rest ih =>
    intro a hc
    rw [List.foldl_cons]
    have hstep : minStep (some a) c = some a := by
      simp [minStep, hc c (List.mem_cons_self c rest)]
    rw [hstep]
    exact ih a (fun x hx => hc x (List.mem_cons_of_mem c hx))

/-- C4: for every hazard set whose drawn areas are well formed, the detour
planner selects the zone given by folding, in encounter order (all reports, then
the drawn areas), the planar kilometer distances from the origin, the first
candidate at the strictly smallest distance winning ties; the selected distance
is minimal among all candidates; with no hazards nothing is selected and
planDetour returns null for every requester; and a single report strictly nearer
to the origin than every area boundary is the selected zone. -/
theorem nearest_selection (g : TurfGeo) (startCoords : Coord) (reports : List Report)
    (drawn : List DrawnItem)
    (h : ∀ item ∈ drawn, isAreaType item = true → areaUsable item) :
    (selectedZone g startCoords reports drawn =
      Except.ok ((firstMin (candidateList g (originPos startCoords) reports drawn)).map
        Prod.fst)) ∧
    (∀ sel, firstMin (candidateList g (originPos startCoords) reports drawn) = some sel →
      ∀ c ∈ candidateList g (originPos startCoords) reports drawn, sel.2 ≤ c.2) ∧
    (reports = [] → drawn = [] →
      ∀ (req : Requester) (endCoords : Coord) (routeCoordinates : List LatLng),
        planDetour g req startCoords endCoords routeCoordinates reports drawn =
          Except.ok none) ∧
    (∀ r, reports = [r] →
      (∀ item ∈ drawn, isAreaType item = true →
        g.distance (originPos startCoords) (posOfReport r) <
          g.pointToLineDistance (originPos startCoords) (outerRing item)) →
      selectedZone g startCoords reports drawn =
        Except.ok (some (FloodZone.pt (posOfReport r)))) := by
  refine ⟨selectedZone_eq g startCoords reports drawn h, firstMin_min _, ?_, ?_⟩
  · rintro rfl rfl req endCoords routeCoordinates
    rfl
  · intro r hrep hless
    subst hrep
    rw [selectedZone_eq g startCoords [r] drawn h]
    have hstable : ((drawn.filter isAreaType).map (candOfArea g (originPos startCoords))).foldl
        minStep (some (candOfReport g (originPos startCoords) r)) =
        some (candOfReport g (originPos startCoords) r) := by
      apply foldl_minStep_stable
      intro c hc
      obtain ⟨item, hitem, rfl⟩ := List.mem_map.mp hc
      have hmem := List.mem_filter.mp hitem
      exact not_lt.mpr (le_of_lt (hless item hmem.1 hmem.2))
    have hfm : firstMin (candidateList g (originPos startCoords) [r] drawn) =
        some (candOfReport g (originPos startCoords) r) := by
      simp only [candidateList, List.map_cons, List.map_nil, List.singleton_append,
        firstMin, List.foldl_cons]
      exact hstable
    rw [hfm]
    rfl

/-- Witness for C4 at a concrete origin, one report and one drawn rectangle. -/
theorem nearest_selection_witness :
    (selectedZone gAll startC [sampleReport] [goodItem] =
      Except.ok ((firstMin (candidateList gAll (originPos startC) [sampleReport]
        [goodItem])).map Prod.fst)) ∧
    (∀ sel, firstMin (candidateList gAll (originPos startC) [sampleReport] [goodItem]) =
        some sel →
      ∀ c ∈ candidateList gAll (originPos startC) [sampleReport] [goodItem], sel.2 ≤ c.2) ∧
    ([sampleReport] = ([] : List Report) → [goodItem] = ([] : List DrawnItem) →
      ∀ (req : Requester) (endCoords : Coord) (routeCoordinates : List LatLng),
        planDetour gAll req startC endCoords routeCoordinates [sampleReport] [goodItem] =
          Except.ok none) ∧
    (∀ r, [sampleReport] = [r] →
      (∀ item ∈ [goodItem], isAreaType item = true →
        gAll.distance (originPos startC) (posOfReport r) <
          gAll.pointToLineDistance (originPos startC) (outerRing item)) →
      selectedZone gAll startC [sampleReport] [goodItem] =
        Except.ok (some (FloodZone.pt (posOfReport r)))) :=
  nearest_selection gAll startC [sampleReport] [goodItem]
    (by intro item hm hty; simp only [List.mem_singleton] at hm; subst hm
        unfold areaUsable ringsValid; decide)

theorem mergeLegs_none_left (d1 d2 : OsrmData) (h : legHasRoute (Except.ok d1) = false) :
    mergeLegs d1 d2 = none := by
  unfold mergeLegs
  cases hd1 : d1.routes with
  | none =>
    cases hd2 : d2.routes with
    | none => rfl
    | some l2 => cases l2 <;> rfl
  | some l1 =>
    cases l1 with
    | nil =>
      cases hd2 : d2.routes with
      | none => rfl
      | some l2 => cases l2 <;> rfl
    | cons a rest =>
      have htrue : legHasRoute (Except.ok d1) = true := by
        show (match d1.routes with
          | some (_ :: _) => true
          | _ => false) = true
        rw [hd1]
      rw [htrue] at h
      exact absurd h (by simp)

theorem mergeLegs_none_right (d1 d2 : OsrmData) (h : legHasRoute (Except.ok d2) = false) :
    mergeLegs d1 d2 = none := by
  unfold mergeLegs
  cases hd2 : d2.routes with
  | none =>
    cases hd1 : d1.routes with
    | none => rfl
    | some l1 => cases l1 <;> rfl
  | some l2 =>
    cases l2 with
    | nil =>
      cases hd1 : d1.routes with
      | none => rfl
      | some l1 => cases l1 <;> rfl
    | cons b rest =>
      have htrue : legHasRoute (Except.ok d2) = true := by
        show (match d2.routes with
          | some (_ :: _) => true
          | _ => false) = true
        rw [hd2]
      rw [htrue] at h
      exact absurd h (by simp)

theorem mergeLegs_some (d1 d2 : OsrmData) (a0 b0 : List Pos)
    (arest brest : List (List Pos))
    (h1 : d1.routes = some (a0 :: arest)) (h2 : d2.routes = some (b0 :: brest)) :
    mergeLegs d1 d2 = some ((a0 ++ b0).map latLngOfPos) := by
  unfold mergeLegs
  rw [h1, h2]

theorem mergeLegs_some_inv (d1 d2 : OsrmData) (alt : List LatLng)
    (h : mergeLegs d1 d2 = some alt) :
    legHasRoute (Except.ok d1) = true ∧ legHasRoute (Except.ok d2) = true := by
  unfold mergeLegs at h
  cases hd1 : d1.routes with
  | none =>
    rw [hd1] at h
    cases hd2 : d2.routes with
    | none => rw [hd2] at h; cases h
    | some l2 => rw [hd2] at h; cases l2 <;> cases h
  | some l1 =>
    cases l1 with
    | nil =>
      rw [hd1] at h
      cases hd2 : d2.routes with
      | none => rw [hd2] at h; cases h
      | some l2 => rw [hd2] at h; cases l2 <;> cases h
    | cons a arest =>
      rw [hd1] at h
      cases hd2 : d2.routes with
      | none => rw [hd2] at h; cases h
      | some l2 =>
        rw [hd2] at h
        cases l2 with
        | nil => cases h
        | cons b brest =>
          constructor
          · show (match d1.routes with
              | some (_ :: _) => true
              | _ => false) = true
            rw [hd1]
          · show (match d2.routes with
              | some (_ :: _) => true
              | _ => false) = true
            rw [hd2]

theorem planDetour_ok (g : TurfGeo) (req : Requester) (startCoords endCoords : Coord)
    (routeCoordinates : List LatLng) (reports : List Report) (drawn : List DrawnItem)
    (zone : FloodZone) (w : Pos) (d1 d2 : OsrmData)
    (hz : selectedZone g startCoords reports drawn = Except.ok (some zone))
    (hw : bypassWaypoint g routeCoordinates zone = Except.ok w)
    (h1 : req (originPos startCoords) w = Except.ok d1)
    (h2 : req w (originPos endCoords) = Except.ok d2) :
    planDetour g req startCoords endCoords routeCoordinates reports drawn =
      Except.ok (mergeLegs d1 d2) := by
  simp only [planDetour, hz, hw, h1, h2]

theorem evaluateRoute_ok (g : TurfGeo) (req : Requester) (startCoords endCoords : Coord)
    (reports : List Report) (drawn : List DrawnItem) (data : OsrmData)
    (r0 : List Pos) (rtail : List (List Pos))
    (hr : data.routes = some (r0 :: rtail))
    (hcheck : checkRouteForFloods g (r0.map latLngOfPos) reports drawn = Except.ok true) :
    evaluateRoute g req startCoords endCoords reports drawn (Except.ok data) =
      { route := some (r0.map latLngOfPos),
        altRoute := ((planDetour g req startCoords endCoords (r0.map latLngOfPos)
          reports drawn).toOption).join,
        showWarning := true } := by
  simp only [evaluateRoute, hr, hcheck]
  cases planDetour g req startCoords endCoords (r0.map latLngOfPos) reports drawn with
  | error e => rfl
  | ok o => cases o <;> rfl

/-- C3: once the primary route is stored and the flood check is positive, the
warning flag is set; if either detour leg request fails or carries no candidate
route then the alternate route is null while the flag stays true; and an
alternate route is produced only when both legs return at least one candidate
route. -/
theorem detour_leg_failure (g : TurfGeo) (req : Requester) (startCoords endCoords : Coord)
    (reports : List Report) (drawn : List DrawnItem) (data : OsrmData)
    (r0 : List Pos) (rtail : List (List Pos))
    (hr : data.routes = some (r0 :: rtail))
    (hcheck : checkRouteForFloods g (r0.map latLngOfPos) reports drawn = Except.ok true) :
    (evaluateRoute g req startCoords endCoords reports drawn (Except.ok data)).showWarning
      = true ∧
    (∀ zone w,
      selectedZone g startCoords reports drawn = Except.ok (some zone) →
      bypassWaypoint g (r0.map latLngOfPos) zone = Except.ok w →
      (legHasRoute (req (originPos startCoords) w) = false ∨
        legHasRoute (req w (originPos endCoords)) = false) →
      (evaluateRoute g req startCoords endCoords reports drawn (Except.ok data)).altRoute
        = none) ∧
    (∀ alt,
      (evaluateRoute g req startCoords endCoords reports drawn (Except.ok data)).altRoute
        = some alt →
      ∃ zone w d1 d2,
        selectedZone g startCoords reports drawn = Except.ok (some zone) ∧
        bypassWaypoint g (r0.map latLngOfPos) zone = Except.ok w ∧
        req (originPos startCoords) w = Except.ok d1 ∧
        req w (originPos endCoords) = Except.ok d2 ∧
        legHasRoute (req (originPos startCoords) w) = true ∧
        legHasRoute (req w (originPos endCoords)) = true) := by
  have heval := evaluateRoute_ok g req startCoords endCoords reports drawn data r0 rtail
    hr hcheck
  refine ⟨by rw [heval], ?_, ?_⟩
  · intro zone w hz hw hfail
    rw [heval]
    show ((planDetour g req startCoords endCoords (r0.map latLngOfPos) reports
      drawn).toOption).join = none
    cases h1 : req (originPos startCoords) w with
    | error e =>
      simp only [planDetour, hz, hw, h1]
      rfl
    | ok d1 =>
      cases h2 : req w (originPos endCoords) with
      | error e =>
        simp only [planDetour, hz, hw, h1, h2]
        rfl
      | ok d2 =>
        simp only [planDetour, hz, hw, h1, h2]
        rcases hfail with hf | hf
        · rw [h1] at hf
          rw [mergeLegs_none_left d1 d2 hf]
          rfl
        · rw [h2] at hf
          rw [mergeLegs_none_right d1 d2 hf]
          rfl
  · intro alt halt
    rw [heval] at halt
    have halt' : ((planDetour g req startCoords endCoords (r0.map latLngOfPos) reports
        drawn).toOption).join = some alt := halt
    cases hz : selectedZone g startCoords reports drawn with
    | error e =>
      simp only [planDetour, hz] at halt'
      exact Option.noConfusion halt'
    | ok zo =>
      cases zo with
      | none =>
        simp only [planDetour, hz] at halt'
        exact Option.noConfusion halt'
      | some zone =>
        cases hw : bypassWaypoint g (r0.map latLngOfPos) zone with
        | error e =>
          simp only [planDetour, hz, hw] at halt'
          exact Option.noConfusion halt'
        | ok w =>
          cases h1 : req (originPos startCoords) w with
          | error e =>
            simp only [planDetour, hz, hw, h1] at halt'
            exact Option.noConfusion halt'
          | ok d1 =>
            cases h2 : req w (originPos endCoords) with
            | error e =>
              simp only [planDetour, hz, hw, h1, h2] at halt'
              exact Option.noConfusion halt'
            | ok d2 =>
              simp only [planDetour, hz, hw, h1, h2] at halt'
              have hm : mergeLegs d1 d2 = some alt := halt'
              have hinv := mergeLegs_some_inv d1 d2 alt hm
              exact ⟨zone, w, d1, d2, rfl, hw, h1, h2,
                by rw [h1]; exact hinv.1, by rw [h2]; exact hinv.2⟩

/-- Witness for C3 at concrete inputs with a failing requester. -/
theorem detour_leg_failure_witness :
    (evaluateRoute gAll reqFail startC endC [sampleReport] [] primaryOk).showWarning
      = true ∧
    (∀ zone w,
      selectedZone gAll startC [sampleReport] [] = Except.ok (some zone) →
      bypassWaypoint gAll (primaryCoords.map latLngOfPos) zone = Except.ok w →
      (legHasRoute (reqFail (originPos startC) w) = false ∨
        legHasRoute (reqFail w (originPos endC)) = false) →
      (evaluateRoute gAll reqFail startC endC [sampleReport] [] primaryOk).altRoute
        = none) ∧
    (∀ alt,
      (evaluateRoute gAll reqFail startC endC [sampleReport] [] primaryOk).altRoute
        = some alt →
      ∃ zone w d1 d2,
        selectedZone gAll startC [sampleReport] [] = Except.ok (some zone) ∧
        bypassWaypoint gAll (primaryCoords.map latLngOfPos) zone = Except.ok w ∧
        reqFail (originPos startC) w = Except.ok d1 ∧
        reqFail w (originPos endC) = Except.ok d2 ∧
        legHasRoute (reqFail (originPos startC) w) = true ∧
        legHasRoute (reqFail w (originPos endC)) = true) :=
  detour_leg_failure gAll reqFail startC endC [sampleReport] []
    primaryData primaryCoords [] rfl rfl

/-- C5: the bypass waypoint equals the nearestPointOnLine projection of the
selected hazard zone onto the original route line, offset by the fixed delta of
0.01 added to both coordinate axes; and the two detour legs are requested
exactly at origin to waypoint and waypoint to destination, so two requesters
that agree on those two queries give the same planDetour result. -/
theorem bypass_waypoint_spec (g : TurfGeo) (req₁ req₂ : Requester)
    (startCoords endCoords : Coord) (routeCoordinates : List LatLng)
    (reports : List Report) (drawn : List DrawnItem) (zone : FloodZone) (w : Pos)
    (hz : selectedZone g startCoords reports drawn = Except.ok (some zone))
    (hw : bypassWaypoint g routeCoordinates zone = Except.ok w) :
    w = offsetPoint (g.nearestPointOnLine (toLine routeCoordinates) zone) ∧
    w.1 = (g.nearestPointOnLine (toLine routeCoordinates) zone).1 + 1 / 100 ∧
    w.2 = (g.nearestPointOnLine (toLine routeCoordinates) zone).2 + 1 / 100 ∧
    (req₁ (originPos startCoords) w = req₂ (originPos startCoords) w →
     req₁ w (originPos endCoords) = req₂ w (originPos endCoords) →
     planDetour g req₁ startCoords endCoords routeCoordinates reports drawn =
       planDetour g req₂ startCoords endCoords routeCoordinates reports drawn) := by
  have hw' : w = offsetPoint (g.nearestPointOnLine (toLine routeCoordinates) zone) := by
    unfold bypassWaypoint at hw
    cases hls : turfLineString (toLine routeCoordinates) with
    | error e => rw [hls] at hw; cases hw
    | ok line =>
      have hline : toLine routeCoordinates = line := by
        unfold turfLineString at hls
        by_cases hc : (toLine routeCoordinates).length < 2
        · rw [if_pos hc] at hls; cases hls
        · rw [if_neg hc] at hls; injection hls
      rw [hls] at hw
      injection hw with hw
      rw [← hw, hline]
  refine ⟨hw', by rw [hw']; rfl, by rw [hw']; rfl, ?_⟩
  intro he1 he2
  simp only [planDetour, hz, hw, he1, he2]

/-- Witness for C5 at a concrete zone and waypoint. -/
theorem bypass_waypoint_spec_witness :
    sampleW = offsetPoint (gAll.nearestPointOnLine (toLine sampleRoute) sampleZone) ∧
    sampleW.1 = (gAll.nearestPointOnLine (toLine sampleRoute) sampleZone).1 + 1 / 100 ∧
    sampleW.2 = (gAll.nearestPointOnLine (toLine sampleRoute) sampleZone).2 + 1 / 100 ∧
    (reqOk (originPos startC) sampleW = reqFail (originPos startC) sampleW →
     reqOk sampleW (originPos endC) = reqFail sampleW (originPos endC) →
     planDetour gAll reqOk startC endC sampleRoute [sampleReport] [] =
       planDetour gAll reqFail startC endC sampleRoute [sampleReport] []) :=
  bypass_waypoint_spec gAll reqOk reqFail startC endC sampleRoute [sampleReport] []
    sampleZone sampleW rfl rfl

/-- C6: when both detour legs succeed with at least one candidate route each,
planDetour returns exactly leg A followed by leg B converted to the display
coordinate order, and its coordinate count is the sum of the two leg counts. -/
theorem merge_concat (g : TurfGeo) (req : Requester) (startCoords endCoords : Coord)
    (routeCoordinates : List LatLng) (reports : List Report) (drawn : List DrawnItem)
    (zone : FloodZone) (w : Pos) (d1 d2 : OsrmData) (a0 b0 : List Pos)
    (arest brest : List (List Pos))
    (hz : selectedZone g startCoords reports drawn = Except.ok (some zone))
    (hw : bypassWaypoint g routeCoordinates zone = Except.ok w)
    (h1 : req (originPos startCoords) w = Except.ok d1)
    (h1r : d1.routes = some (a0 :: arest))
    (h2 : req w (originPos endCoords) = Except.ok d2)
    (h2r : d2.routes = some (b0 :: brest)) :
    planDetour g req startCoords endCoords routeCoordinates reports drawn =
      Except.ok (some ((a0 ++ b0).map latLngOfPos)) ∧
    ((a0 ++ b0).map latLngOfPos).length = a0.length + b0.length := by
  constructor
  · rw [planDetour_ok g req startCoords endCoords routeCoordinates reports drawn zone w
      d1 d2 hz hw h1 h2, mergeLegs_some d1 d2 a0 b0 arest brest h1r h2r]
  · simp

/-- Witness for C6 at concrete inputs with a succeeding requester. -/
theorem merge_concat_witness :
    planDetour gAll reqOk startC endC sampleRoute [sampleReport] [] =
      Except.ok (some (([(0, 0), (1, 1)] ++ [(0, 0), (1, 1)] : List Pos).map latLngOfPos)) ∧
    (([(0, 0), (1, 1)] ++ [(0, 0), (1, 1)] : List Pos).map latLngOfPos).length =
      ([(0, 0), (1, 1)] : List Pos).length + ([(0, 0), (1, 1)] : List Pos).length :=
  merge_concat gAll reqOk startC endC sampleRoute [sampleReport] []
    sampleZone sampleW legData legData [(0, 0), (1, 1)] [(0, 0), (1, 1)] [] []
    rfl rfl rfl rfl rfl rfl

/-- C10: the merged alternate route is surfaced as is with no second flood
check: under the success hypotheses of a detour, evaluateRoute stores exactly
the merged legs as altRoute, even when checkRouteForFloods on that merged route
against the very same hazard set returns true. -/
theorem alt_route_not_revalidated (g : TurfGeo) (req : Requester)
    (startCoords endCoords : Coord) (reports : List Report) (drawn : List DrawnItem)
    (data : OsrmData) (r0 : List Pos) (rtail : List (List Pos)) (zone : FloodZone)
    (w : Pos) (d1 d2 : OsrmData) (a0 b0 : List Pos) (arest brest : List (List Pos))
    (hr : data.routes = some (r0 :: rtail))
    (hcheck : checkRouteForFloods g (r0.map latLngOfPos) reports drawn = Except.ok true)
    (hz : selectedZone g startCoords reports drawn = Except.ok (some zone))
    (hw : bypassWaypoint g (r0.map latLngOfPos) zone = Except.ok w)
    (h1 : req (originPos startCoords) w = Except.ok d1)
    (h1r : d1.routes = some (a0 :: arest))
    (h2 : req w (originPos endCoords) = Except.ok d2)
    (h2r : d2.routes = some (b0 :: brest))
    (hbad : checkRouteForFloods g ((a0 ++ b0).map latLngOfPos) reports drawn =
      Except.ok true) :
    (evaluateRoute g req startCoords endCoords reports drawn (Except.ok data)).altRoute =
      some ((a0 ++ b0).map latLngOfPos) := by
  rw [evaluateRoute_ok g req startCoords endCoords reports drawn data r0 rtail hr hcheck]
  show ((planDetour g req startCoords endCoords (r0.map latLngOfPos) reports
    drawn).toOption).join = some ((a0 ++ b0).map latLngOfPos)
  rw [planDetour_ok g req startCoords endCoords (r0.map latLngOfPos) reports drawn zone w
    d1 d2 hz hw h1 h2, mergeLegs_some d1 d2 a0 b0 arest brest h1r h2r]
  rfl

/-- Witness for C10: the merged detour route itself still crosses the hazard,
yet it is stored as the alternate route. -/
theorem alt_route_not_revalidated_witness :
    (evaluateRoute gAll reqOk startC endC [sampleReport] [] primaryOk).altRoute =
      some (([(0, 0), (1, 1)] ++ [(0, 0), (1, 1)] : List Pos).map latLngOfPos) :=
  alt_route_not_revalidated gAll reqOk startC endC [sampleReport] [] primaryData
    primaryCoords [] sampleZone primaryW
    legData legData [(0, 0), (1, 1)] [(0, 0), (1, 1)] [] []
    rfl rfl rfl rfl rfl rfl rfl rfl rfl

theorem checkReports_congr (g : TurfGeo) (line : List Pos) :
    ∀ rs₁ rs₂ : List Report, rs₁.map sevStripped = rs₂.map sevStripped →
      checkReports g line rs₁ = checkReports g line rs₂ := by
  intro rs₁
  induction rs₁ with
  | nil =>
    intro rs₂ h
    cases rs₂ with
    | nil => rfl
    | cons r' rest' => simp at h
  | cons r rest ih =>
    intro rs₂ h
    cases rs₂ with
    | nil => simp at h
    | cons r' rest' =>
      simp only [List.map_cons, List.cons.injEq] at h
      have hstrip : posOfReport (sevStripped r) = posOfReport (sevStripped r') :=
        congrArg posOfReport h.1
      have hpos : posOfReport r = posOfReport r' := hstrip
      simp only [checkReports, hpos]
      cases hb : g.booleanIntersects line (g.buffer (posOfReport r') (1 / 10)) with
      | true => simp only [hb, if_true]
      | false =>
        simp only [hb, Bool.false_eq_true, if_false]
        exact ih rest' h.2

theorem foldReports_congr (g : TurfGeo) (p : Pos) :
    ∀ rs₁ rs₂ : List Report, rs₁.map sevStripped = rs₂.map sevStripped →
      ∀ acc, foldReports g p acc rs₁ = foldReports g p acc rs₂ := by
  intro rs₁
  induction rs₁ with
  | nil =>
    intro rs₂ h acc
    cases rs₂ with
    | nil => rfl
    | cons r' rest' => simp at h
  | cons r rest ih =>
    intro rs₂ h acc
    cases rs₂ with
    | nil => simp at h
    | cons r' rest' =>
      simp only [List.map_cons, List.cons.injEq] at h
      have hstrip : posOfReport (sevStripped r) = posOfReport (sevStripped r') :=
        congrArg posOfReport h.1
      have hpos : posOfReport r = posOfReport r' := hstrip
      show foldReports g p (accStep acc (candOfReport g p r)) rest =
        foldReports g p (accStep acc (candOfReport g p r')) rest'
      rw [show candOfReport g p r = candOfReport g p r' by
        unfold candOfReport; rw [hpos]]
      exact ih rest' h.2 _

/-- C8: severity noninterference: two report lists that agree after clearing the
severity field give the same flood check boolean, the same selected nearest
zone, and the same planDetour outcome, hence the same bypass waypoint; severity
never feeds the buffer, the intersection test or the detour selection. -/
theorem severity_noninterference (g : TurfGeo) (req : Requester)
    (startCoords endCoords : Coord) (routeCoordinates : List LatLng)
    (reports₁ reports₂ : List Report) (drawn : List DrawnItem)
    (h : reports₁.map sevStripped = reports₂.map sevStripped) :
    checkRouteForFloods g routeCoordinates reports₁ drawn =
      checkRouteForFloods g routeCoordinates reports₂ drawn ∧
    selectedZone g startCoords reports₁ drawn =
      selectedZone g startCoords reports₂ drawn ∧
    planDetour g req startCoords endCoords routeCoordinates reports₁ drawn =
      planDetour g req startCoords endCoords routeCoordinates reports₂ drawn := by
  have hsel : selectedZone g startCoords reports₁ drawn =
      selectedZone g startCoords reports₂ drawn := by
    unfold selectedZone
    rw [foldReports_congr g (originPos startCoords) reports₁ reports₂ h]
  refine ⟨?_, hsel, ?_⟩
  · unfold checkRouteForFloods
    cases turfLineString (toLine routeCoordinates) with
    | error e => rfl
    | ok line =>
      show (if checkReports g line reports₁ = true then Except.ok true
          else checkDrawn g line drawn) =
        (if checkReports g line reports₂ = true then Except.ok true
          else checkDrawn g line drawn)
      rw [checkReports_congr g line reports₁ reports₂ h]
  · unfold planDetour
    rw [hsel]

/-- Witness for C8: the same report at two severities. -/
theorem severity_noninterference_witness :
    checkRouteForFloods gAll sampleRoute [sampleReport] [goodItem] =
      checkRouteForFloods gAll sampleRoute [sampleReportLow] [goodItem] ∧
    selectedZone gAll startC [sampleReport] [goodItem] =
      selectedZone gAll startC [sampleReportLow] [goodItem] ∧
    planDetour gAll reqOk startC endC sampleRoute [sampleReport] [goodItem] =
      planDetour gAll reqOk startC endC sampleRoute [sampleReportLow] [goodItem] :=
  severity_noninterference gAll reqOk startC endC sampleRoute [sampleReport]
    [sampleReportLow] [goodItem] rfl

theorem checkDrawn_filter (g : TurfGeo) (line : List Pos) (ds : List DrawnItem) :
    checkDrawn g line ds = checkDrawn g line (ds.filter isAreaType) := by
  induction ds with
  | nil => rfl
  | cons item rest ih =>
    by_cases ha : isAreaType item = true
    · cases hp : turfPolygon (areaRings item) with
      | error e => simp only [checkDrawn, List.filter_cons, ha, if_true, hp]
      | ok poly =>
        cases hb : g.booleanIntersects line poly with
        | true => simp only [checkDrawn, List.filter_cons, ha, if_true, hp, hb]
        | false =>
          simp only [checkDrawn, List.filter_cons, ha, if_true, hp, hb,
            Bool.false_eq_true, if_false]
          exact ih
    · have ha' : isAreaType item = false := by
        revert ha; cases isAreaType item <;> simp
      simp only [checkDrawn, List.filter_cons, ha', Bool.false_eq_true, if_false]
      exact ih

theorem foldDrawn_filter (g : TurfGeo) (p : Pos) (ds : List DrawnItem) :
    ∀ acc, foldDrawn g p acc ds = foldDrawn g p acc (ds.filter isAreaType) := by
  induction ds with
  | nil => intro acc; rfl
  | cons item rest ih =>
    intro acc
    by_cases ha : isAreaType item = true
    · cases hp : turfPolygon (areaRings item) with
      | error e => simp only [foldDrawn, List.filter_cons, ha, if_true, hp]
      | ok rings =>
        cases hl : turfLineString (rings.headD []) with
        | error e => simp only [foldDrawn, List.filter_cons, ha, if_true, hp, hl]
        | ok ringLine =>
          simp only [foldDrawn, List.filter_cons, ha, if_true, hp, hl]
          exact ih _
    · have ha' : isAreaType item = false := by
        revert ha; cases isAreaType item <;> simp
      simp only [foldDrawn, List.filter_cons, ha', Bool.false_eq_true, if_false]
      exact ih acc

/-- C9: drawn items whose type is neither rectangle nor polygon are ignored:
any two drawn lists with the same rectangle and polygon items give the same
flood check result, the same selected nearest zone, and the same planDetour
outcome, so adding or removing items of other types changes nothing. -/
theorem non_area_items_ignored (g : TurfGeo) (req : Requester)
    (startCoords endCoords : Coord) (routeCoordinates : List LatLng)
    (reports : List Report) (drawn₁ drawn₂ : List DrawnItem)
    (h : drawn₁.filter isAreaType = drawn₂.filter isAreaType) :
    checkRouteForFloods g routeCoordinates reports drawn₁ =
      checkRouteForFloods g routeCoordinates reports drawn₂ ∧
    selectedZone g startCoords reports drawn₁ =
      selectedZone g startCoords reports drawn₂ ∧
    planDetour g req startCoords endCoords routeCoordinates reports drawn₁ =
      planDetour g req startCoords endCoords routeCoordinates reports drawn₂ := by
  have hsel : selectedZone g startCoords reports drawn₁ =
      selectedZone g startCoords reports drawn₂ := by
    unfold selectedZone
    rw [foldDrawn_filter g (originPos startCoords) drawn₁, h,
      ← foldDrawn_filter g (originPos startCoords) drawn₂]
  refine ⟨?_, hsel, ?_⟩
  · unfold checkRouteForFloods
    cases turfLineString (toLine routeCoordinates) with
    | error e => rfl
    | ok line =>
      show (if checkReports g line reports = true then Except.ok true
          else checkDrawn g line drawn₁) =
        (if checkReports g line reports = true then Except.ok true
          else checkDrawn g line drawn₂)
      rw [checkDrawn_filter g line drawn₁, h, ← checkDrawn_filter g line drawn₂]
  · unfold planDetour
    rw [hsel]

/-- Witness for C9: adding a circlemarker item changes nothing. -/
theorem non_area_items_ignored_witness :
    checkRouteForFloods gAll sampleRoute [sampleReport] [goodItem, strayItem] =
      checkRouteForFloods gAll sampleRoute [sampleReport] [goodItem] ∧
    selectedZone gAll startC [sampleReport] [goodItem, strayItem] =
      selectedZone gAll startC [sampleReport] [goodItem] ∧
    planDetour gAll reqOk startC endC sampleRoute [sampleReport] [goodItem, strayItem] =
      planDetour gAll reqOk startC endC sampleRoute [sampleReport] [goodItem] :=
  non_area_items_ignored gAll reqOk startC endC sampleRoute [sampleReport]
    [goodItem, strayItem] [goodItem] (by decide)

end MonsoonApp
